import Mathlib

/-!
Verification of the Moog ladder filter engine in `src/src/lib.rs`.

The source is a Rust `nih_plug` audio plugin. Its processing core is the
`process` method of `MoogLadderFilter`: for each sample frame of the buffer it
derives per-frame coefficients from the (smoothed) parameters, then runs one
nonlinear ladder step per channel against the plugin's single mutable state
(`prev_outputs : Vec<f32>` of length 4, `prev_w : Vec<f32>` of length 3, and
`g : f32`).

The shallow embedding idealises `f32` arithmetic to real arithmetic: `tanh` is
`Real.tanh`, `exp` is `Real.exp`, and Rust's `TAU` constant is the exact
`2 * Real.pi`.  Parameter smoothing is an external collaborator and is modelled
as the coefficients being fixed for the frames under consideration.
-/

namespace Moog

noncomputable section

/-- Thermal-voltage term: the source computes `let two_vt = 2.0 * 0.026;`. -/
def twoVt : ℝ := 2 * 0.026

/-- Reciprocal thermal-voltage term: `let two_vt_reciprocal = 1.0 / two_vt;`. -/
def twoVtRecip : ℝ := 1 / twoVt

/-- Integrator gain, from
`self.g = 1.0 - (-std::f32::consts::TAU * (cutoff * inverse_sample_rate)).exp();`
with `inverse_sample_rate = 1.0 / sample_rate` (source lines 180, 184). -/
def computeG (cutoff sampleRate : ℝ) : ℝ :=
  1 - Real.exp (-(2 * Real.pi) * (cutoff * (1 / sampleRate)))

/-- The per-frame coefficients the inner sample loop reads: the mapped drive,
resonance and output gains and the integrator gain `g`. -/
structure Coeffs where
  drive : ℝ
  resonance : ℝ
  output : ℝ
  g : ℝ

/-- Per-frame coefficient derivation (source lines 173–187):
`let drive = 1.0 + self.params.drive.smoothed.next() * 14.0;`
`let resonance = self.params.resonance.smoothed.next() * 4.0;`
`let output = 1.0 + self.params.output.smoothed.next() * 14.0;`
together with the integrator gain `computeG`. -/
def makeCoeffs (driveRaw resonanceRaw outputRaw cutoff sampleRate : ℝ) : Coeffs :=
  { drive := 1 + driveRaw * 14
    resonance := resonanceRaw * 4
    output := 1 + outputRaw * 14
    g := computeG cutoff sampleRate }

/-- The persistent ladder state: `prev_outputs` has four entries and `prev_w`
has three entries (source lines 38–39). -/
structure LadderState where
  prevOut0 : ℝ
  prevOut1 : ℝ
  prevOut2 : ℝ
  prevOut3 : ℝ
  prevW0 : ℝ
  prevW1 : ℝ
  prevW2 : ℝ

/-- The all-zero ladder state, as built by `MoogLadderFilter::default`
(`prev_outputs: vec![0.0, 0.0, 0.0, 0.0], prev_w: vec![0.0, 0.0, 0.0]`). -/
def zeroLadder : LadderState := ⟨0, 0, 0, 0, 0, 0, 0⟩

/-- One 4-pole sample update, translated from the `if poles` branch of the
inner loop (source lines 191–219).  Returns the new state and the written
output sample. -/
def step4 (c : Coeffs) (s : LadderState) (x : ℝ) : LadderState × ℝ :=
  let twoVtG := twoVt * c.g
  let input := Real.tanh (x * c.drive)
  let tanhStage1 := Real.tanh (input - 4 * c.resonance * s.prevOut3 * twoVtRecip)
  let stage1 := s.prevOut0 + twoVtG * (tanhStage1 - s.prevW0)
  let w0 := Real.tanh (stage1 * twoVtRecip)
  let stage2 := s.prevOut1 + twoVtG * (w0 - s.prevW1)
  let w1 := Real.tanh (stage2 * twoVtRecip)
  let stage3 := s.prevOut2 + twoVtG * (w1 - s.prevW2)
  let w2 := Real.tanh (stage3 * twoVtRecip)
  let stage4 := s.prevOut3 + twoVtG * (w2 - Real.tanh (s.prevOut3 * twoVtRecip))
  let out := Real.tanh (c.output * stage4 * c.drive)
  (⟨stage1, stage2, stage3, stage4, w0, w1, w2⟩, out)

/-- One 2-pole sample update, translated from the `else` branch of the inner
loop (source lines 221–233).  Note the output line is
`*sample = (output * stage_2).tanh();` — with no `drive` factor. -/
def step2 (c : Coeffs) (s : LadderState) (x : ℝ) : LadderState × ℝ :=
  let twoVtG := twoVt * c.g
  let input := Real.tanh (x * c.drive)
  let tanhStage1 := Real.tanh (input - 4 * c.resonance * s.prevOut1 * twoVtRecip)
  let stage1 := s.prevOut0 + twoVtG * (tanhStage1 - s.prevW0)
  let w0 := Real.tanh (stage1 * twoVtRecip)
  let stage2 := s.prevOut1 + twoVtG * (w0 - Real.tanh (s.prevOut1 * twoVtRecip))
  let out := Real.tanh (c.output * stage2)
  ({ s with prevOut0 := stage1, prevOut1 := stage2, prevW0 := w0 }, out)

/-- One sample update: `true` selects the 4-pole branch, `false` the 2-pole
branch (`// true = 4 pole / false = 2 pole`, source line 192). -/
def processSample (c : Coeffs) (poles : Bool) (s : LadderState) (x : ℝ) :
    LadderState × ℝ :=
  if poles then step4 c s x else step2 c s x

/-- The plugin's parameter block (`FilterParams`, source lines 12–32), with the
numeric parameters already smoothed to scalar values.  `attack`, `release`,
`amount` and `hiLowPass` are declared in the source but never read by
`process`. -/
structure FilterParams where
  cutoff : ℝ
  resonance : ℝ
  drive : ℝ
  output : ℝ
  attack : ℝ
  rel : ℝ
  amount : ℝ
  twoPoleFourPole : Bool
  hiLowPass : Bool

/-- The coefficients `process` derives from the parameter block each frame:
only `cutoff`, `resonance`, `drive` and `output` are read. -/
def coeffsOfParams (p : FilterParams) (sampleRate : ℝ) : Coeffs :=
  makeCoeffs p.drive p.resonance p.output p.cutoff sampleRate

/-- Stereo buffer processing: `buffer.iter_samples()` yields one frame per
sample index, and the inner `for sample in channel_samples` loop runs the
ladder step once per channel — left channel first, then right — against the
single shared plugin state (source lines 171–235). -/
def processStereo (c : Coeffs) (poles : Bool) :
    LadderState → List (ℝ × ℝ) → LadderState × List (ℝ × ℝ)
  | s, [] => (s, [])
  | s, (l, r) :: rest =>
      let resL := processSample c poles s l
      let resR := processSample c poles resL.1 r
      let resRest := processStereo c poles resR.1 rest
      (resRest.1, (resL.2, resR.2) :: resRest.2)

/-- Buffer processing from the raw parameter block: per-frame coefficient
derivation followed by the per-channel ladder steps. -/
def processBuffer (p : FilterParams) (sampleRate : ℝ) (s : LadderState)
    (frames : List (ℝ × ℝ)) : LadderState × List (ℝ × ℝ) :=
  processStereo (coeffsOfParams p sampleRate) p.twoPoleFourPole s frames

/-- Running the single shared ladder state over a flat list of samples. -/
def runMono (c : Coeffs) (poles : Bool) :
    LadderState → List ℝ → LadderState × List ℝ
  | s, [] => (s, [])
  | s, x :: rest =>
      let res := processSample c poles s x
      let resRest := runMono c poles res.1 rest
      (resRest.1, res.2 :: resRest.2)

/-- Flattening a stereo frame list into the order in which the source visits
the samples: left then right within each frame. -/
def interleave : List (ℝ × ℝ) → List ℝ
  | [] => []
  | (l, r) :: rest => l :: r :: interleave rest

/-- The whole persistent state of the plugin struct: the ladder state plus the
stored integrator gain `g` (source lines 5–10). -/
structure FilterState where
  ladder : LadderState
  g : ℝ

/-- The state of a freshly constructed instance (`MoogLadderFilter::default`,
source lines 34–43): all zeros. -/
def defaultFilterState : FilterState := ⟨zeroLadder, 0⟩

/-- Stream deactivation handler, translated from `fn deactivate(&mut self) {}`
(source line 241): the body is empty, so the state is left unchanged. -/
def deactivate (s : FilterState) : FilterState := s

/-- Per-stage integrator gain as named by the specification:
`let two_vt_g = two_vt * self.g` (source line 187). -/
def stageGain (c : Coeffs) : ℝ := twoVt * c.g

end

/-! Helper facts about `Real.tanh`, `Real.exp` and the embedded constants. -/

lemma tanh_lt_one (x : ℝ) : Real.tanh x < 1 := by
  rw [Real.tanh_eq_sinh_div_cosh, div_lt_one (Real.cosh_pos x)]
  exact Real.sinh_lt_cosh x

lemma neg_one_lt_tanh (x : ℝ) : -1 < Real.tanh x := by
  have h := tanh_lt_one (-x)
  rw [Real.tanh_neg] at h
  linarith

lemma tanh_strictMono : StrictMono Real.tanh := by
  intro x y hxy
  rw [Real.tanh_eq_sinh_div_cosh, Real.tanh_eq_sinh_div_cosh,
    div_lt_div_iff (Real.cosh_pos x) (Real.cosh_pos y)]
  have h : Real.sinh (x - y) < 0 := Real.sinh_neg_iff.mpr (by linarith)
  rw [Real.sinh_sub] at h
  have hc := mul_comm (Real.sinh y) (Real.cosh x)
  linarith

lemma tanh_injective : Function.Injective Real.tanh :=
  tanh_strictMono.injective

lemma tanh_pos {x : ℝ} (hx : 0 < x) : 0 < Real.tanh x := by
  have h := tanh_strictMono hx
  rwa [Real.tanh_zero] at h

lemma tanh_neg_of_neg {x : ℝ} (hx : x < 0) : Real.tanh x < 0 := by
  have h := tanh_strictMono hx
  rwa [Real.tanh_zero] at h

lemma sinh_lt_mul_cosh {x : ℝ} (hx : 0 < x) : Real.sinh x < x * Real.cosh x := by
  have key : StrictMonoOn (fun y : ℝ => y * Real.cosh y - Real.sinh y) (Set.Ici 0) := by
    apply strictMonoOn_of_deriv_pos (convex_Ici 0)
    · exact ((continuous_id.mul Real.continuous_cosh).sub Real.continuous_sinh).continuousOn
    · intro y hy
      rw [interior_Ici, Set.mem_Ioi] at hy
      have hd : HasDerivAt (fun y : ℝ => y * Real.cosh y - Real.sinh y)
          (1 * Real.cosh y + y * Real.sinh y - Real.cosh y) y :=
        ((hasDerivAt_id' y).mul (Real.hasDerivAt_cosh y)).sub (Real.hasDerivAt_sinh y)
      rw [hd.deriv]
      have hs : 0 < Real.sinh y := Real.sinh_pos_iff.mpr hy
      nlinarith
  have h0 := key Set.left_mem_Ici (Set.mem_Ici.mpr hx.le) hx
  simp only [Real.cosh_zero, Real.sinh_zero, mul_one, zero_mul, sub_zero, zero_sub, neg_zero] at h0
  linarith

lemma tanh_lt_self {x : ℝ} (hx : 0 < x) : Real.tanh x < x := by
  rw [Real.tanh_eq_sinh_div_cosh, div_lt_iff (Real.cosh_pos x)]
  exact sinh_lt_mul_cosh hx

lemma twoVt_pos : 0 < twoVt := by norm_num [twoVt]

lemma twoVtRecip_pos : 0 < twoVtRecip := by norm_num [twoVtRecip, twoVt]

lemma twoVt_mul_twoVtRecip : twoVt * twoVtRecip = 1 := by
  rw [twoVtRecip, twoVt]
  norm_num

lemma twoVt_mul_recip_cancel (y z : ℝ) : twoVt * y * z * twoVtRecip = y * z := by
  have h := twoVt_mul_twoVtRecip
  linear_combination y * z * h

lemma computeG_pos {c s : ℝ} (hc : 0 < c) (hs : 0 < s) : 0 < computeG c s := by
  rw [computeG]
  have h1 : Real.exp (-(2 * Real.pi) * (c * (1 / s))) < 1 := by
    rw [Real.exp_lt_one_iff]
    have hpi := Real.pi_pos
    have hcs : 0 < c * (1 / s) := mul_pos hc (by positivity)
    nlinarith
  linarith

lemma computeG_lt_one (c s : ℝ) : computeG c s < 1 := by
  rw [computeG]
  have h2 := Real.exp_pos (-(2 * Real.pi) * (c * (1 / s)))
  linarith

/-! The claims. -/

/-- C1: for every input sample processed in 4-pole mode, the per-sample update
performs, in order: `x = tanh(input · driveGain)`; feedback
`fb = 4 · resonanceGain · stageOutput[3] · thermalVoltageRecip` from the value
left by the previous sample; stage 1 updates `stageOutput[0]` by
`stageGain · (tanh(x - fb) - stageSaturated[0])` and then stores
`stageSaturated[0] = tanh(stageOutput[0] · thermalVoltageRecip)`; stages 2 and 3
update `stageOutput[i] += stageGain · (stageSaturated[i-1] - stageSaturated[i])`
and refresh `stageSaturated[i]`; the 4th stage's subtracted term is
`tanh(stageOutput[3] · thermalVoltageRecip)` computed inline (the state holds no
`stageSaturated[3]`); and the returned sample is
`tanh(outputGain · stageOutput[3] · driveGain)` with the newly updated
`stageOutput[3]`. -/
theorem C1_four_pole_update_structure (c : Coeffs) (s : LadderState) (x : ℝ) :
    (step4 c s x).1.prevOut0 = s.prevOut0 + stageGain c *
      (Real.tanh (Real.tanh (x * c.drive)
        - 4 * c.resonance * s.prevOut3 * twoVtRecip) - s.prevW0) ∧
    (step4 c s x).1.prevW0 = Real.tanh ((step4 c s x).1.prevOut0 * twoVtRecip) ∧
    (step4 c s x).1.prevOut1 = s.prevOut1 + stageGain c *
      ((step4 c s x).1.prevW0 - s.prevW1) ∧
    (step4 c s x).1.prevW1 = Real.tanh ((step4 c s x).1.prevOut1 * twoVtRecip) ∧
    (step4 c s x).1.prevOut2 = s.prevOut2 + stageGain c *
      ((step4 c s x).1.prevW1 - s.prevW2) ∧
    (step4 c s x).1.prevW2 = Real.tanh ((step4 c s x).1.prevOut2 * twoVtRecip) ∧
    (step4 c s x).1.prevOut3 = s.prevOut3 + stageGain c *
      ((step4 c s x).1.prevW2 - Real.tanh (s.prevOut3 * twoVtRecip)) ∧
    (step4 c s x).2 = Real.tanh (c.output * (step4 c s x).1.prevOut3 * c.drive) :=
  ⟨rfl, rfl, rfl, rfl, rfl, rfl, rfl, rfl⟩

/-- C3: for every `cutoffHz > 0` and `sampleRateHz > 0`, the coefficient stage
computes `g = 1 - exp(-2π · cutoffHz / sampleRateHz)` and the result lies
strictly between 0 and 1. -/
theorem C3_integrator_gain_in_unit_interval (cutoff sampleRate : ℝ)
    (hc : 0 < cutoff) (hs : 0 < sampleRate) :
    computeG cutoff sampleRate
      = 1 - Real.exp (-(2 * Real.pi * cutoff / sampleRate)) ∧
    0 < computeG cutoff sampleRate ∧ computeG cutoff sampleRate < 1 := by
  refine ⟨?_, computeG_pos hc hs, computeG_lt_one cutoff sampleRate⟩
  rw [computeG]
  ring_nf

/-- Witness for C3 at `cutoffHz = 1000`, `sampleRateHz = 48000`. -/
theorem C3_integrator_gain_in_unit_interval_witness :
    (0 : ℝ) < 1000 ∧ (0 : ℝ) < 48000 ∧
    (computeG 1000 48000 = 1 - Real.exp (-(2 * Real.pi * 1000 / 48000)) ∧
      0 < computeG 1000 48000 ∧ computeG 1000 48000 < 1) :=
  ⟨by norm_num, by norm_num,
    C3_integrator_gain_in_unit_interval 1000 48000 (by norm_num) (by norm_num)⟩

/-- C7: for raw smoothed parameter values in `[0,1]`, the derived gains are the
affine maps `driveGain = 1 + 14 · drive` with range `[1,15]`,
`resonanceGain = 4 · resonance` with range `[0,4]`, and
`outputGain = 1 + 14 · output` with range `[1,15]`. -/
theorem C7_affine_gain_maps (d r o cutoff sampleRate : ℝ)
    (hd0 : 0 ≤ d) (hd1 : d ≤ 1) (hr0 : 0 ≤ r) (hr1 : r ≤ 1)
    (ho0 : 0 ≤ o) (ho1 : o ≤ 1) :
    (makeCoeffs d r o cutoff sampleRate).drive = 1 + 14 * d ∧
    (makeCoeffs d r o cutoff sampleRate).resonance = 4 * r ∧
    (makeCoeffs d r o cutoff sampleRate).output = 1 + 14 * o ∧
    1 ≤ (makeCoeffs d r o cutoff sampleRate).drive ∧
    (makeCoeffs d r o cutoff sampleRate).drive ≤ 15 ∧
    0 ≤ (makeCoeffs d r o cutoff sampleRate).resonance ∧
    (makeCoeffs d r o cutoff sampleRate).resonance ≤ 4 ∧
    1 ≤ (makeCoeffs d r o cutoff sampleRate).output ∧
    (makeCoeffs d r o cutoff sampleRate).output ≤ 15 := by
  refine ⟨by rw [makeCoeffs]; ring, by rw [makeCoeffs]; ring,
    by rw [makeCoeffs]; ring, ?_, ?_, ?_, ?_, ?_, ?_⟩ <;>
    simp only [makeCoeffs] <;> nlinarith

/-- Witness for C7 at raw parameter values `1/2`. -/
theorem C7_affine_gain_maps_witness :
    ((0 : ℝ) ≤ 1/2 ∧ (1/2 : ℝ) ≤ 1) ∧
    ((makeCoeffs (1/2) (1/2) (1/2) 1000 48000).drive = 1 + 14 * (1/2) ∧
      (makeCoeffs (1/2) (1/2) (1/2) 1000 48000).resonance = 4 * (1/2) ∧
      (makeCoeffs (1/2) (1/2) (1/2) 1000 48000).output = 1 + 14 * (1/2) ∧
      1 ≤ (makeCoeffs (1/2) (1/2) (1/2) 1000 48000).drive ∧
      (makeCoeffs (1/2) (1/2) (1/2) 1000 48000).drive ≤ 15 ∧
      0 ≤ (makeCoeffs (1/2) (1/2) (1/2) 1000 48000).resonance ∧
      (makeCoeffs (1/2) (1/2) (1/2) 1000 48000).resonance ≤ 4 ∧
      1 ≤ (makeCoeffs (1/2) (1/2) (1/2) 1000 48000).output ∧
      (makeCoeffs (1/2) (1/2) (1/2) 1000 48000).output ≤ 15) :=
  ⟨⟨by norm_num, by norm_num⟩,
    C7_affine_gain_maps (1/2) (1/2) (1/2) 1000 48000 (by norm_num) (by norm_num)
      (by norm_num) (by norm_num) (by norm_num) (by norm_num)⟩

/-- C8: every value the per-sample update stores into a `stageSaturated` slot
and the output sample it returns lie in the open interval `(-1, 1)`, each being
produced directly by `tanh`, in both the 4-pole and the 2-pole path. -/
theorem C8_saturated_values_in_open_unit_ball (c : Coeffs) (s : LadderState)
    (x : ℝ) :
    (-1 < (step4 c s x).2 ∧ (step4 c s x).2 < 1) ∧
    (-1 < (step4 c s x).1.prevW0 ∧ (step4 c s x).1.prevW0 < 1) ∧
    (-1 < (step4 c s x).1.prevW1 ∧ (step4 c s x).1.prevW1 < 1) ∧
    (-1 < (step4 c s x).1.prevW2 ∧ (step4 c s x).1.prevW2 < 1) ∧
    (-1 < (step2 c s x).2 ∧ (step2 c s x).2 < 1) ∧
    (-1 < (step2 c s x).1.prevW0 ∧ (step2 c s x).1.prevW0 < 1) :=
  ⟨⟨neg_one_lt_tanh _, tanh_lt_one _⟩, ⟨neg_one_lt_tanh _, tanh_lt_one _⟩,
    ⟨neg_one_lt_tanh _, tanh_lt_one _⟩, ⟨neg_one_lt_tanh _, tanh_lt_one _⟩,
    ⟨neg_one_lt_tanh _, tanh_lt_one _⟩, ⟨neg_one_lt_tanh _, tanh_lt_one _⟩⟩

/-- C10: the processed output never depends on the `hi_low_pass` flag, nor on
the `attack`, `release` or `amount` parameters: two runs identical except for
those parameter values produce identical output samples and identical final
filter state. -/
theorem C10_unused_parameters_do_not_affect_output (p q : FilterParams)
    (sampleRate : ℝ) (s : LadderState) (frames : List (ℝ × ℝ))
    (hc : p.cutoff = q.cutoff) (hr : p.resonance = q.resonance)
    (hd : p.drive = q.drive) (ho : p.output = q.output)
    (hp : p.twoPoleFourPole = q.twoPoleFourPole) :
    processBuffer p sampleRate s frames = processBuffer q sampleRate s frames := by
  unfold processBuffer coeffsOfParams
  rw [hc, hr, hd, ho, hp]

/-- Parameter block with default-like audio parameters and one choice of the
unused `attack`/`release`/`amount`/`hi_low_pass` values. -/
def paramsA : FilterParams :=
  { cutoff := 20000, resonance := 0, drive := 0, output := 0,
    attack := 0, rel := 0, amount := 0, twoPoleFourPole := true, hiLowPass := true }

/-- Same audio parameters as `paramsA` but different `attack`, `release`,
`amount` and `hi_low_pass` values. -/
def paramsB : FilterParams :=
  { cutoff := 20000, resonance := 0, drive := 0, output := 0,
    attack := 5, rel := 7, amount := -3, twoPoleFourPole := true, hiLowPass := false }

/-- Witness for C10: `paramsA` and `paramsB` differ only in the unused
parameters and produce the same result on a concrete buffer. -/
theorem C10_unused_parameters_do_not_affect_output_witness :
    paramsA.cutoff = paramsB.cutoff ∧ paramsA.resonance = paramsB.resonance ∧
    paramsA.drive = paramsB.drive ∧ paramsA.output = paramsB.output ∧
    paramsA.twoPoleFourPole = paramsB.twoPoleFourPole ∧
    processBuffer paramsA 48000 zeroLadder [(1, 0), (1/2, -1)]
      = processBuffer paramsB 48000 zeroLadder [(1, 0), (1/2, -1)] :=
  ⟨rfl, rfl, rfl, rfl, rfl,
    C10_unused_parameters_do_not_affect_output paramsA paramsB 48000 zeroLadder
      [(1, 0), (1/2, -1)] rfl rfl rfl rfl rfl⟩

/-- C6: in 2-pole mode, the per-sample update never reads or writes
`stageOutput[2]`, `stageOutput[3]`, `stageSaturated[1]` or `stageSaturated[2]`:
two states differing only in those slots produce the same output and the same
values in the used slots, and the unused slots are left unchanged. -/
theorem C6_two_pole_ignores_unused_slots (c : Coeffs) (x : ℝ)
    (s t : LadderState) (h0 : s.prevOut0 = t.prevOut0)
    (h1 : s.prevOut1 = t.prevOut1) (hw : s.prevW0 = t.prevW0) :
    (step2 c s x).2 = (step2 c t x).2 ∧
    (step2 c s x).1.prevOut0 = (step2 c t x).1.prevOut0 ∧
    (step2 c s x).1.prevOut1 = (step2 c t x).1.prevOut1 ∧
    (step2 c s x).1.prevW0 = (step2 c t x).1.prevW0 ∧
    (step2 c s x).1.prevOut2 = s.prevOut2 ∧
    (step2 c s x).1.prevOut3 = s.prevOut3 ∧
    (step2 c s x).1.prevW1 = s.prevW1 ∧
    (step2 c s x).1.prevW2 = s.prevW2 := by
  refine ⟨?_, ?_, ?_, ?_, rfl, rfl, rfl, rfl⟩ <;> simp only [step2, h0, h1, hw]

/-- Ladder state whose unused 2-pole slots hold arbitrary nonzero junk. -/
def junkState : LadderState := ⟨0, 0, 5, 7, 0, 3, 4⟩

/-- Witness for C6: the zero state and `junkState` agree on the used slots and
the 2-pole step treats them identically, leaving the junk in place. -/
theorem C6_two_pole_ignores_unused_slots_witness :
    zeroLadder.prevOut0 = junkState.prevOut0 ∧
    zeroLadder.prevOut1 = junkState.prevOut1 ∧
    zeroLadder.prevW0 = junkState.prevW0 ∧
    ((step2 ⟨1, 0, 1, 1/2⟩ zeroLadder 1).2 = (step2 ⟨1, 0, 1, 1/2⟩ junkState 1).2 ∧
      (step2 ⟨1, 0, 1, 1/2⟩ zeroLadder 1).1.prevOut0
        = (step2 ⟨1, 0, 1, 1/2⟩ junkState 1).1.prevOut0 ∧
      (step2 ⟨1, 0, 1, 1/2⟩ zeroLadder 1).1.prevOut1
        = (step2 ⟨1, 0, 1, 1/2⟩ junkState 1).1.prevOut1 ∧
      (step2 ⟨1, 0, 1, 1/2⟩ zeroLadder 1).1.prevW0
        = (step2 ⟨1, 0, 1, 1/2⟩ junkState 1).1.prevW0 ∧
      (step2 ⟨1, 0, 1, 1/2⟩ zeroLadder 1).1.prevOut2 = zeroLadder.prevOut2 ∧
      (step2 ⟨1, 0, 1, 1/2⟩ zeroLadder 1).1.prevOut3 = zeroLadder.prevOut3 ∧
      (step2 ⟨1, 0, 1, 1/2⟩ zeroLadder 1).1.prevW1 = zeroLadder.prevW1 ∧
      (step2 ⟨1, 0, 1, 1/2⟩ zeroLadder 1).1.prevW2 = zeroLadder.prevW2) :=
  ⟨rfl, rfl, rfl,
    C6_two_pole_ignores_unused_slots ⟨1, 0, 1, 1/2⟩ 1 zeroLadder junkState rfl rfl rfl⟩

lemma step4_zero_input_zero_state (c : Coeffs) : step4 c zeroLadder 0 = (zeroLadder, 0) := by
  simp [step4, zeroLadder]

lemma step2_zero_input_zero_state (c : Coeffs) : step2 c zeroLadder 0 = (zeroLadder, 0) := by
  simp [step2, zeroLadder]

lemma processSample_zero (c : Coeffs) (poles : Bool) :
    processSample c poles zeroLadder 0 = (zeroLadder, 0) := by
  cases poles <;>
    simp [processSample, step4_zero_input_zero_state, step2_zero_input_zero_state]

lemma runMono_zero (c : Coeffs) (poles : Bool) (n : ℕ) :
    runMono c poles zeroLadder (List.replicate n 0)
      = (zeroLadder, List.replicate n 0) := by
  induction n with
  | zero => simp [runMono]
  | succ k ih => simp [List.replicate, runMono, processSample_zero, ih]

/-- Counterexample for C4: the source's `fn deactivate(&mut self) {}` has an
empty body, so it does not reset the state to that of a freshly constructed
instance.  A state with `prev_outputs[0] = 1` survives deactivation. -/
theorem C4_counterexample :
    deactivate ⟨⟨1, 0, 0, 0, 0, 0, 0⟩, 0⟩ ≠ defaultFilterState := by
  intro h
  have h0 := congrArg (fun st => st.ladder.prevOut0) h
  simp [deactivate, defaultFilterState, zeroLadder] at h0

/-- C4 amended: `deactivate` leaves the filter state unchanged (its body is
empty); a freshly constructed instance has all-zero state; and from the
all-zero state, all-zero input produces all-zero output while preserving the
zero state, in either topology. -/
theorem C4_deactivate_identity_and_zero_state_silent (st : FilterState)
    (c : Coeffs) (poles : Bool) (n : ℕ) :
    deactivate st = st ∧
    defaultFilterState.ladder = zeroLadder ∧ defaultFilterState.g = 0 ∧
    processSample c poles zeroLadder 0 = (zeroLadder, 0) ∧
    runMono c poles zeroLadder (List.replicate n 0)
      = (zeroLadder, List.replicate n 0) :=
  ⟨rfl, rfl, rfl, processSample_zero c poles, runMono_zero c poles n⟩

/-- Counterexample for C2: in the 2-pole path the source writes
`*sample = (output * stage_2).tanh();` — without the `drive` factor that the
4-pole path applies post-stage.  At `driveRaw = 1` (so `driveGain = 15`),
`resonanceRaw = 0`, `outputRaw = 0`, `cutoff = 1000`, `sampleRate = 48000`,
state `⟨0, 0, 0, 0, 1/2, 0, 0⟩` and input `0`, the produced sample differs from
the claimed `tanh(outputGain · stageOutput[1] · driveGain)`. -/
theorem C2_counterexample :
    (step2 (makeCoeffs 1 0 0 1000 48000) ⟨0, 0, 0, 0, 1/2, 0, 0⟩ 0).2
      ≠ Real.tanh ((makeCoeffs 1 0 0 1000 48000).output
          * (step2 (makeCoeffs 1 0 0 1000 48000) ⟨0, 0, 0, 0, 1/2, 0, 0⟩ 0).1.prevOut1
          * (makeCoeffs 1 0 0 1000 48000).drive) := by
  have hg : 0 < computeG 1000 48000 := computeG_pos (by norm_num) (by norm_num)
  have hs2 : (step2 (makeCoeffs 1 0 0 1000 48000) ⟨0, 0, 0, 0, 1/2, 0, 0⟩ 0).1.prevOut1
      = twoVt * computeG 1000 48000 * Real.tanh (-(computeG 1000 48000 * (1/2))) := by
    simp [step2, makeCoeffs]
    norm_num [twoVt, twoVtRecip]
    ring_nf
    exact Or.inl trivial
  have htp : (0:ℝ) < twoVt * computeG 1000 48000 := by
    have h2 : (0:ℝ) < twoVt := twoVt_pos
    positivity
  have hneg :
      (step2 (makeCoeffs 1 0 0 1000 48000) ⟨0, 0, 0, 0, 1/2, 0, 0⟩ 0).1.prevOut1 < 0 := by
    rw [hs2]
    have ht : Real.tanh (-(computeG 1000 48000 * (1/2))) < 0 :=
      tanh_neg_of_neg (by nlinarith)
    nlinarith
  have hform : (step2 (makeCoeffs 1 0 0 1000 48000) ⟨0, 0, 0, 0, 1/2, 0, 0⟩ 0).2
      = Real.tanh ((makeCoeffs 1 0 0 1000 48000).output
          * (step2 (makeCoeffs 1 0 0 1000 48000) ⟨0, 0, 0, 0, 1/2, 0, 0⟩ 0).1.prevOut1) := rfl
  intro h
  rw [hform] at h
  have harg := tanh_injective h
  have hout : (makeCoeffs 1 0 0 1000 48000).output = 1 := by norm_num [makeCoeffs]
  have hdrv : (makeCoeffs 1 0 0 1000 48000).drive = 15 := by norm_num [makeCoeffs]
  rw [hout, hdrv] at harg
  nlinarith [hneg, harg]

/-- C2 amended: the 2-pole path is structurally the 4-pole path restricted to
2 stages — the resonance feedback tap reads `stageOutput[1]`, the final stage's
subtracted saturation term is computed inline from `stageOutput[1]`, and the
unused slots are untouched — but the returned sample is
`tanh(outputGain · stageOutput[1])`: the post-stage `driveGain` factor of the
4-pole path is absent (drive is applied only as preamp in this branch). -/
theorem C2_two_pole_update_structure (c : Coeffs) (s : LadderState) (x : ℝ) :
    (step2 c s x).1.prevOut0 = s.prevOut0 + stageGain c *
      (Real.tanh (Real.tanh (x * c.drive)
        - 4 * c.resonance * s.prevOut1 * twoVtRecip) - s.prevW0) ∧
    (step2 c s x).1.prevW0 = Real.tanh ((step2 c s x).1.prevOut0 * twoVtRecip) ∧
    (step2 c s x).1.prevOut1 = s.prevOut1 + stageGain c *
      ((step2 c s x).1.prevW0 - Real.tanh (s.prevOut1 * twoVtRecip)) ∧
    (step2 c s x).2 = Real.tanh (c.output * (step2 c s x).1.prevOut1) ∧
    (step2 c s x).1.prevOut2 = s.prevOut2 ∧
    (step2 c s x).1.prevOut3 = s.prevOut3 ∧
    (step2 c s x).1.prevW1 = s.prevW1 ∧
    (step2 c s x).1.prevW2 = s.prevW2 :=
  ⟨rfl, rfl, rfl, rfl, rfl, rfl, rfl, rfl⟩

lemma step2_eval_first (g : ℝ) :
    step2 ⟨1, 0, 1, g⟩ zeroLadder 1
      = (⟨twoVt * g * Real.tanh (Real.tanh 1),
          twoVt * g * Real.tanh (g * Real.tanh (Real.tanh 1)), 0, 0,
          Real.tanh (g * Real.tanh (Real.tanh 1)), 0, 0⟩,
         Real.tanh (twoVt * g * Real.tanh (g * Real.tanh (Real.tanh 1)))) := by
  simp [step2, zeroLadder]
  norm_num [twoVt, twoVtRecip]
  ring_nf
  all_goals tauto

lemma step2_eval_second (g a b : ℝ) :
    step2 ⟨1, 0, 1, g⟩ ⟨twoVt * g * a, twoVt * g * b, 0, 0, b, 0, 0⟩ 0
      = (⟨twoVt * g * a - twoVt * g * b,
          twoVt * g * b + twoVt * g * (Real.tanh (g * a - g * b) - Real.tanh (g * b)),
          0, 0, Real.tanh (g * a - g * b), 0, 0⟩,
         Real.tanh (twoVt * g * b
            + twoVt * g * (Real.tanh (g * a - g * b) - Real.tanh (g * b)))) := by
  simp [step2]
  norm_num [twoVt, twoVtRecip]
  ring_nf
  all_goals tauto

/-- Parameter block used to exhibit cross-channel interference: 2-pole mode,
zero resonance, unit drive and output gains. -/
def paramsC5 : FilterParams :=
  { cutoff := 1000, resonance := 0, drive := 0, output := 0,
    attack := 0, rel := 0, amount := 0, twoPoleFourPole := false, hiLowPass := true }

lemma coeffsOfParamsC5 :
    coeffsOfParams paramsC5 48000 = ⟨1, 0, 1, computeG 1000 48000⟩ := by
  simp [coeffsOfParams, makeCoeffs, paramsC5]

/-- Counterexample for C5: the plugin holds a single `prev_outputs`/`prev_w`
state shared by both channels, so a channel's output depends on the other
channel's input.  The two stereo buffers `[(0,1),(0,0)]` and `[(0,0),(0,0)]`
have identical left-channel input `[0,0]`, yet the left-channel outputs
differ: processing the right channel's `1` perturbs the shared state, making
the left channel's second output nonzero. -/
theorem C5_counterexample :
    ([((0:ℝ), (1:ℝ)), (0, 0)].map Prod.fst
      = [((0:ℝ), (0:ℝ)), (0, 0)].map Prod.fst) ∧
    (processBuffer paramsC5 48000 zeroLadder [(0, 1), (0, 0)]).2.map Prod.fst
      ≠ (processBuffer paramsC5 48000 zeroLadder [(0, 0), (0, 0)]).2.map Prod.fst := by
  refine ⟨rfl, ?_⟩
  have hg : 0 < computeG 1000 48000 := computeG_pos (by norm_num) (by norm_num)
  have hg1 : computeG 1000 48000 < 1 := computeG_lt_one 1000 48000
  have ha : 0 < Real.tanh (Real.tanh 1) := tanh_pos (tanh_pos one_pos)
  have hb : 0 < Real.tanh (computeG 1000 48000 * Real.tanh (Real.tanh 1)) :=
    tanh_pos (mul_pos hg ha)
  have hblt : Real.tanh (computeG 1000 48000 * Real.tanh (Real.tanh 1))
      < Real.tanh (Real.tanh 1) := by
    have h1 := tanh_lt_self (mul_pos hg ha)
    nlinarith
  have hB : (processBuffer paramsC5 48000 zeroLadder [(0, 0), (0, 0)]).2
      = [(0, 0), (0, 0)] := by
    simp [processBuffer, processStereo, processSample_zero]
  have hA : (processBuffer paramsC5 48000 zeroLadder [(0, 1), (0, 0)]).2.map Prod.fst
      = [0, Real.tanh (twoVt * computeG 1000 48000
            * Real.tanh (computeG 1000 48000 * Real.tanh (Real.tanh 1))
          + twoVt * computeG 1000 48000
            * (Real.tanh (computeG 1000 48000 * Real.tanh (Real.tanh 1)
                - computeG 1000 48000
                  * Real.tanh (computeG 1000 48000 * Real.tanh (Real.tanh 1)))
              - Real.tanh (computeG 1000 48000
                  * Real.tanh (computeG 1000 48000 * Real.tanh (Real.tanh 1)))))] := by
    rw [processBuffer, coeffsOfParamsC5]
    simp [processStereo, processSample, paramsC5, step2_zero_input_zero_state,
      step2_eval_first, step2_eval_second, mul_sub]
  rw [hA, hB]
  have hvg : 0 < twoVt * computeG 1000 48000 := mul_pos twoVt_pos hg
  have hw : 0 < Real.tanh (computeG 1000 48000 * Real.tanh (Real.tanh 1)
      - computeG 1000 48000
        * Real.tanh (computeG 1000 48000 * Real.tanh (Real.tanh 1))) := by
    apply tanh_pos
    nlinarith
  have htgb : Real.tanh (computeG 1000 48000
        * Real.tanh (computeG 1000 48000 * Real.tanh (Real.tanh 1)))
      < computeG 1000 48000
        * Real.tanh (computeG 1000 48000 * Real.tanh (Real.tanh 1)) :=
    tanh_lt_self (mul_pos hg hb)
  have hpos : 0 < Real.tanh (twoVt * computeG 1000 48000
        * Real.tanh (computeG 1000 48000 * Real.tanh (Real.tanh 1))
      + twoVt * computeG 1000 48000
        * (Real.tanh (computeG 1000 48000 * Real.tanh (Real.tanh 1)
            - computeG 1000 48000
              * Real.tanh (computeG 1000 48000 * Real.tanh (Real.tanh 1)))
          - Real.tanh (computeG 1000 48000
              * Real.tanh (computeG 1000 48000 * Real.tanh (Real.tanh 1))))) := by
    apply tanh_pos
    have hgb : computeG 1000 48000
          * Real.tanh (computeG 1000 48000 * Real.tanh (Real.tanh 1))
        < Real.tanh (computeG 1000 48000 * Real.tanh (Real.tanh 1)) := by nlinarith
    have hsum : 0 < Real.tanh (computeG 1000 48000 * Real.tanh (Real.tanh 1))
        + (Real.tanh (computeG 1000 48000 * Real.tanh (Real.tanh 1)
            - computeG 1000 48000
              * Real.tanh (computeG 1000 48000 * Real.tanh (Real.tanh 1)))
          - Real.tanh (computeG 1000 48000
              * Real.tanh (computeG 1000 48000 * Real.tanh (Real.tanh 1)))) := by
      linarith
    nlinarith [mul_pos hvg hsum]
  simp only [ne_eq, List.map_cons, List.map_nil, List.cons.injEq, Prod.fst]
  intro h
  exact absurd h.2.1 (ne_of_gt hpos)

/-- C5 amended: the two channels of a stereo buffer are processed against a
single shared filter state, left channel then right channel within each frame;
the stereo run is exactly the mono state machine folded over the interleaved
sample sequence `L0, R0, L1, R1, …`, so a channel's output may depend on the
other channel's earlier inputs. -/
theorem C5_stereo_is_interleaved_mono_run (c : Coeffs) (poles : Bool)
    (s : LadderState) (frames : List (ℝ × ℝ)) :
    (processStereo c poles s frames).1
      = (runMono c poles s (interleave frames)).1 ∧
    interleave (processStereo c poles s frames).2
      = (runMono c poles s (interleave frames)).2 := by
  induction frames generalizing s with
  | nil => exact ⟨rfl, rfl⟩
  | cons f rest ih =>
      obtain ⟨l, r⟩ := f
      obtain ⟨ih1, ih2⟩ := ih (processSample c poles (processSample c poles s l).1 r).1
      constructor
      · simpa [processStereo, runMono, interleave] using ih1
      · simpa [processStereo, runMono, interleave] using ih2

end Moog
